import Mathlib

/-!
Shallow embedding of the SlideShifter slide-reconstruction pipeline:
the crop engine (`cropImage`), the per-slide assembler (`slideOps`,
embedding the body of `generatePptx`), and the batch pipeline controller
(`analyzeSlides`, `createSimplePptx`, `handleFileAccepted` from App.tsx).
Numbers are rationals (TypeScript numbers with exact arithmetic); the
asynchronous image decode, the external analyzer and the sink write are
modelled as explicit parameters recording their outcomes.
-/

namespace SlideShifter

/-- Outcome of loading the source image inside the crop engine: a decoded
image with pixel dimensions, a load failure (the onerror path), or a load
timeout (the setTimeout path). -/
inductive ImageData
  | ok (width height : ℚ)
  | loadFails
  | loadTimesOut
deriving DecidableEq

/-- Bounding box in percentage space, field order matching the destructuring
`const [ymin, xmin, ymax, xmax] = box` in the source. -/
structure Box where
  ymin : ℚ
  xmin : ℚ
  ymax : ℚ
  xmax : ℚ
deriving DecidableEq

/-- The distinct rejection paths of `cropImage`. -/
inductive CropError
  | invalidBoundingBox
  | loadTimeout
  | loadFailed
  | degenerateCrop
deriving DecidableEq

/-- A successful crop: the clamped source rectangle drawn onto the new
canvas (canvas.width = safeW, canvas.height = safeH). -/
structure CroppedImage where
  safeX : ℚ
  safeY : ℚ
  safeW : ℚ
  safeH : ℚ
deriving DecidableEq

/-- Embedding of `cropImage` (services/pptBuilder).  Validates the box
before the image is even constructed, then (once the image decodes)
converts percentages to pixels, clamps, rejects degenerate rectangles,
and otherwise draws the clamped source rectangle. -/
def cropImage (img : ImageData) (box : Box) : Except CropError CroppedImage :=
  if box.xmax ≤ box.xmin ∨ box.ymax ≤ box.ymin then
    Except.error CropError.invalidBoundingBox
  else
    match img with
    | ImageData.loadTimesOut => Except.error CropError.loadTimeout
    | ImageData.loadFails => Except.error CropError.loadFailed
    | ImageData.ok width height =>
      let cropX := box.xmin / 100 * width
      let cropY := box.ymin / 100 * height
      let cropW := (box.xmax - box.xmin) / 100 * width
      let cropH := (box.ymax - box.ymin) / 100 * height
      let safeX := max 0 cropX
      let safeY := max 0 cropY
      let safeW := min (width - safeX) cropW
      let safeH := min (height - safeY) cropH
      if safeW ≤ 0 ∨ safeH ≤ 0 then
        Except.error CropError.degenerateCrop
      else
        Except.ok { safeX := safeX, safeY := safeY, safeW := safeW, safeH := safeH }

/-- Layout classification enumeration from types.ts. -/
inductive LayoutType
  | TITLE_ONLY
  | TITLE_AND_CONTENT
  | TWO_COLUMN
  | BLANK
  | SECTION_HEADER
deriving DecidableEq

/-- A detected figure: bounding box plus description (types.ts). -/
structure SlideFigure where
  boundingBox : Box
  description : String
deriving DecidableEq

/-- Structured result of the analyzer for one slide (types.ts). -/
structure SlideContent where
  title : String
  content : List String
  layoutType : LayoutType
  backgroundColor : Option String
  textColor : Option String
  notes : Option String
  figures : Option (List SlideFigure)
deriving DecidableEq

/-- Per-slide lifecycle status (types.ts). -/
inductive SlideStatus
  | pending
  | analyzing
  | done
  | error
deriving DecidableEq

/-- A slide being processed by the batch controller (types.ts). -/
structure ProcessedSlide where
  originalImage : ImageData
  analysis : Option SlideContent
  status : SlideStatus
deriving DecidableEq

/-- JavaScript truthiness of an optional string: absent and the empty
string are both falsy. -/
def isTruthy : Option String → Bool
  | none => false
  | some s => !s.isEmpty

/-- Drop the first occurrence of a character from a character list. -/
def removeFirstChar (c : Char) : List Char → List Char
  | [] => []
  | d :: ds => if d = c then ds else d :: removeFirstChar c ds

/-- JavaScript replace of the hash character by the empty string:
removes only the first occurrence. -/
def stripHash (s : String) : String :=
  String.mk (removeFirstChar '#' s.data)

/-- A length passed to the sink, either in inches or as a percent string. -/
inductive Dim
  | inch (v : ℚ)
  | pct (v : ℚ)
deriving DecidableEq

/-- Options of one addText sink call: position, size, font, color,
alignment and bullet flag, as passed in `generatePptx`. -/
structure TextOpts where
  x : Dim
  y : Dim
  w : Dim
  h : Dim
  fontSize : ℚ
  bold : Bool
  color : String
  align : Option String
  valign : Option String
  bullet : Bool
deriving DecidableEq

/-- Data handed to an addImage sink call: a cropped figure or the
original page raster (image-copy mode). -/
inductive ImagePayload
  | cropped (c : CroppedImage)
  | original (img : ImageData)
deriving DecidableEq

/-- Abstract draw operation sent to the output sink (pptxgenjs). -/
inductive DrawOp
  | addSlide
  | setBackground (color : String)
  | addText (blocks : List String) (opts : TextOpts)
  | addImage (payload : ImagePayload) (x y w h : Dim)
  | addNotes (notes : String)
deriving DecidableEq

/-- Title text options from `generatePptx` (x 0.5, y 0.5, w 90%, h 1,
size 32, bold, centered). -/
def titleOpts (fg : String) : TextOpts :=
  { x := Dim.inch (1/2), y := Dim.inch (1/2), w := Dim.pct 90, h := Dim.inch 1,
    fontSize := 32, bold := true, color := fg, align := some "center",
    valign := none, bullet := false }

/-- Left column options for TWO_COLUMN (x 0.5, y 1.8, w 4.2, h 70%,
size 18, bullet). -/
def leftColOpts (fg : String) : TextOpts :=
  { x := Dim.inch (1/2), y := Dim.inch (9/5), w := Dim.inch (21/5), h := Dim.pct 70,
    fontSize := 18, bold := false, color := fg, align := none,
    valign := none, bullet := true }

/-- Right column options for TWO_COLUMN (x 5.0, y 1.8, w 4.2, h 70%,
size 18, bullet). -/
def rightColOpts (fg : String) : TextOpts :=
  { x := Dim.inch 5, y := Dim.inch (9/5), w := Dim.inch (21/5), h := Dim.pct 70,
    fontSize := 18, bold := false, color := fg, align := none,
    valign := none, bullet := true }

/-- SECTION_HEADER body options (x 1, y 2.5, w 80%, h 3, size 24,
centered). -/
def sectionOpts (fg : String) : TextOpts :=
  { x := Dim.inch 1, y := Dim.inch (5/2), w := Dim.pct 80, h := Dim.inch 3,
    fontSize := 24, bold := false, color := fg, align := some "center",
    valign := none, bullet := false }

/-- Default body options (x 0.5, y 1.8, w 90%, h 70%, size 18, bullet,
left and top aligned). -/
def defaultBodyOpts (fg : String) : TextOpts :=
  { x := Dim.inch (1/2), y := Dim.inch (9/5), w := Dim.pct 90, h := Dim.pct 70,
    fontSize := 18, bold := false, color := fg, align := some "left",
    valign := some "top", bullet := true }

/-- Resolved foreground color: textColor with the hash removed when
truthy, the black default 000000 otherwise. -/
def resolveFg (a : SlideContent) : String :=
  if isTruthy a.textColor then stripHash (a.textColor.getD "") else "000000"

/-- Background operations: `if (slideData.backgroundColor) slide.background
= ...` — emitted only when backgroundColor is truthy; no default. -/
def bgOps (a : SlideContent) : List DrawOp :=
  if isTruthy a.backgroundColor then
    [DrawOp.setBackground (stripHash (a.backgroundColor.getD ""))]
  else []

/-- Title operation: emitted when the title string is truthy (nonempty). -/
def titleOps (fg : String) (a : SlideContent) : List DrawOp :=
  if a.title.isEmpty then [] else [DrawOp.addText [a.title] (titleOpts fg)]

/-- Body text operations of `generatePptx`, by layout type.  TWO_COLUMN
splits at `Math.ceil(length / 2)`; SECTION_HEADER joins with newlines;
the default branch covers the remaining layout types. -/
def contentOps (fg : String) (a : SlideContent) : List DrawOp :=
  match a.layoutType with
  | LayoutType.TWO_COLUMN =>
    let midPoint := (a.content.length + 1) / 2
    let leftCol := a.content.take midPoint
    let rightCol := a.content.drop midPoint
    (if 0 < leftCol.length then [DrawOp.addText leftCol (leftColOpts fg)] else [])
      ++ (if 0 < rightCol.length then [DrawOp.addText rightCol (rightColOpts fg)] else [])
  | LayoutType.SECTION_HEADER =>
    if 0 < a.content.length then
      [DrawOp.addText [String.intercalate "\n" a.content] (sectionOpts fg)]
    else []
  | _ =>
    if 0 < a.content.length then
      [DrawOp.addText a.content (defaultBodyOpts fg)]
    else []

/-- One iteration of the figure loop of `generatePptx`: the pre-filter
skips a clearly invalid box with a logged warning; otherwise `cropImage`
is invoked and any failure is caught and skipped (the try/catch), while a
success emits an addImage at the original percentage rectangle. -/
def figOp (img : ImageData) (figure : SlideFigure) : Option DrawOp :=
  let b := figure.boundingBox
  if b.xmax ≤ b.xmin ∨ b.ymax ≤ b.ymin then none
  else
    match cropImage img b with
    | Except.error _ => none
    | Except.ok c =>
      some (DrawOp.addImage (ImagePayload.cropped c)
        (Dim.pct b.xmin) (Dim.pct b.ymin)
        (Dim.pct (b.xmax - b.xmin)) (Dim.pct (b.ymax - b.ymin)))

/-- The figure loop: each figure independently contributes its operation
or is skipped. -/
def figureOps (img : ImageData) (figs : List SlideFigure) : List DrawOp :=
  figs.filterMap (figOp img)

/-- The figure list of an analysis; absent figures behave as the empty
list (the `slideData.figures && slideData.figures.length > 0` guard). -/
def figuresOf (a : SlideContent) : List SlideFigure :=
  a.figures.getD []

/-- Speaker-notes operation, emitted when notes are truthy. -/
def notesOps (a : SlideContent) : List DrawOp :=
  if isTruthy a.notes then [DrawOp.addNotes (a.notes.getD "")] else []

/-- The per-slide body of `generatePptx`: a slide with absent analysis is
skipped (`continue`); otherwise addSlide, colors, title, body text,
figures and notes are emitted in source order. -/
def slideOps (s : ProcessedSlide) : List DrawOp :=
  match s.analysis with
  | none => []
  | some a =>
    let fg := resolveFg a
    DrawOp.addSlide :: (bgOps a ++ titleOps fg a ++ contentOps fg a
      ++ figureOps s.originalImage (figuresOf a) ++ notesOps a)

/-- `generatePptx`: the concatenated sink calls over the slide sequence,
in order. -/
def generatePptxOps : List ProcessedSlide → List DrawOp
  | [] => []
  | s :: rest => slideOps s ++ generatePptxOps rest

/-- `generateImagePptx`: one slide per page, the original raster placed
full-bleed. -/
def generateImagePptxOps : List ProcessedSlide → List DrawOp
  | [] => []
  | s :: rest =>
    DrawOp.addSlide
      :: DrawOp.addImage (ImagePayload.original s.originalImage)
          (Dim.inch 0) (Dim.inch 0) (Dim.pct 100) (Dim.pct 100)
      :: generateImagePptxOps rest

/-- UI application states (types.ts). -/
inductive AppState
  | IDLE
  | PROCESSING_PDF
  | ANALYZING_SLIDES
  | GENERATING_PPT
  | COMPLETED
  | ERROR
deriving DecidableEq

/-- Conversion mode (types.ts). -/
inductive ConversionMode
  | AI_EXTRACT
  | IMAGE_ONLY
deriving DecidableEq

/-- Which throw site produced a caught batch-fatal error: the PDF read
catch in `handleFileAccepted`, the `throw new Error("No slides were
successfully analyzed.")` in `analyzeSlides`, or a `writeFile`
rejection. -/
inductive FailReason
  | inputReadFailed
  | noSlidesAnalyzed
  | sinkWriteFailed
deriving DecidableEq

/-- Observable outcome of one batch run: the terminal app state, the
user-facing error string, the operations handed to the sink, whether
`writeFile` was invoked, and the caught internal error if any. -/
structure RunResult where
  finalState : AppState
  errorMsg : Option String
  sinkOps : List DrawOp
  wroteFile : Bool
  thrownErr : Option FailReason
deriving DecidableEq

/-- Initial batch: every page image becomes a pending slide with absent
analysis (`handleFileAccepted`). -/
def initialSlides (images : List ImageData) : List ProcessedSlide :=
  images.map (fun img => { originalImage := img, analysis := none, status := SlideStatus.pending })

/-- Net effect of one iteration of the sequential analysis loop on slide
i: status analyzing, then the analysis call decides done (with the
analysis stored) or error. -/
def analyzeStep (analyzer : ImageData → Except Unit SlideContent)
    (s : ProcessedSlide) : ProcessedSlide :=
  match analyzer s.originalImage with
  | Except.ok a => { s with analysis := some a, status := SlideStatus.done }
  | Except.error _ => { s with status := SlideStatus.error }

/-- The sequential analysis loop of `analyzeSlides`: each index is
updated independently from its own page image, in page order. -/
def analyzeLoop (analyzer : ImageData → Except Unit SlideContent)
    (slides : List ProcessedSlide) : List ProcessedSlide :=
  slides.map (analyzeStep analyzer)

/-- The retention filter of the finalizing step:
`s.status === done && s.analysis` (status equal to done, analysis present). -/
def isValidSlide (s : ProcessedSlide) : Bool :=
  s.status == SlideStatus.done && s.analysis.isSome

/-- `analyzeSlides` (App.tsx): run the sequential analysis loop, filter
to valid slides, fail the whole batch when none remain (before any sink
call), otherwise build the deck and attempt the sink write. -/
def analyzeSlides (analyzer : ImageData → Except Unit SlideContent)
    (writeRes : Except Unit Unit) (currentSlides : List ProcessedSlide) : RunResult :=
  let updatedSlides := analyzeLoop analyzer currentSlides
  let validSlides := updatedSlides.filter isValidSlide
  if validSlides.length = 0 then
    { finalState := AppState.ERROR
      errorMsg := some "Failed to generate PowerPoint file."
      sinkOps := []
      wroteFile := false
      thrownErr := some FailReason.noSlidesAnalyzed }
  else
    match writeRes with
    | Except.ok _ =>
      { finalState := AppState.COMPLETED
        errorMsg := none
        sinkOps := generatePptxOps validSlides
        wroteFile := true
        thrownErr := none }
    | Except.error _ =>
      { finalState := AppState.ERROR
        errorMsg := some "Failed to generate PowerPoint file."
        sinkOps := generatePptxOps validSlides
        wroteFile := true
        thrownErr := some FailReason.sinkWriteFailed }

/-- `createSimplePptx` (App.tsx): mark every slide done, build the
image-only deck, attempt the sink write. -/
def createSimplePptx (writeRes : Except Unit Unit)
    (currentSlides : List ProcessedSlide) : RunResult :=
  let updatedSlides := currentSlides.map (fun s => { s with status := SlideStatus.done })
  match writeRes with
  | Except.ok _ =>
    { finalState := AppState.COMPLETED
      errorMsg := none
      sinkOps := generateImagePptxOps updatedSlides
      wroteFile := true
      thrownErr := none }
  | Except.error _ =>
    { finalState := AppState.ERROR
      errorMsg := some "Failed to generate PowerPoint file."
      sinkOps := generateImagePptxOps updatedSlides
      wroteFile := true
      thrownErr := some FailReason.sinkWriteFailed }

/-- `handleFileAccepted` (App.tsx): PDF conversion failure is caught with
its own user-facing message; otherwise the batch branches on the mode. -/
def handleFileAccepted (mode : ConversionMode)
    (pdfResult : Except Unit (List ImageData))
    (analyzer : ImageData → Except Unit SlideContent)
    (writeRes : Except Unit Unit) : RunResult :=
  match pdfResult with
  | Except.error _ =>
    { finalState := AppState.ERROR
      errorMsg := some "Failed to process PDF. Please try a simpler file."
      sinkOps := []
      wroteFile := false
      thrownErr := some FailReason.inputReadFailed }
  | Except.ok images =>
    match mode with
    | ConversionMode.AI_EXTRACT => analyzeSlides analyzer writeRes (initialSlides images)
    | ConversionMode.IMAGE_ONLY => createSimplePptx writeRes (initialSlides images)

/-! ### Theorems -/

/-- Helper: on a decoded image of positive dimensions, a strictly valid
box whose coordinates all lie inside [0, 100] passes both validations,
the clamps are identities, and the crop succeeds with the exact
percentage-scaled rectangle. -/
theorem cropImage_inRange (w h : ℚ) (b : Box)
    (hx : b.xmin < b.xmax) (hy : b.ymin < b.ymax)
    (hx0 : 0 ≤ b.xmin) (hx1 : b.xmax ≤ 100)
    (hy0 : 0 ≤ b.ymin) (hy1 : b.ymax ≤ 100)
    (hw : 0 < w) (hh : 0 < h) :
    cropImage (ImageData.ok w h) b =
      Except.ok { safeX := b.xmin / 100 * w, safeY := b.ymin / 100 * h,
                  safeW := (b.xmax - b.xmin) / 100 * w,
                  safeH := (b.ymax - b.ymin) / 100 * h } := by
  have hX : max 0 (b.xmin / 100 * w) = b.xmin / 100 * w :=
    max_eq_right (mul_nonneg (div_nonneg hx0 (by norm_num)) hw.le)
  have hY : max 0 (b.ymin / 100 * h) = b.ymin / 100 * h :=
    max_eq_right (mul_nonneg (div_nonneg hy0 (by norm_num)) hh.le)
  have hWpos : 0 < (b.xmax - b.xmin) / 100 * w :=
    mul_pos (div_pos (sub_pos.mpr hx) (by norm_num)) hw
  have hHpos : 0 < (b.ymax - b.ymin) / 100 * h :=
    mul_pos (div_pos (sub_pos.mpr hy) (by norm_num)) hh
  have hWle : (b.xmax - b.xmin) / 100 * w ≤ w - b.xmin / 100 * w := by
    nlinarith [mul_nonneg (sub_nonneg.mpr hx1) hw.le]
  have hHle : (b.ymax - b.ymin) / 100 * h ≤ h - b.ymin / 100 * h := by
    nlinarith [mul_nonneg (sub_nonneg.mpr hy1) hh.le]
  have hW : min (w - max 0 (b.xmin / 100 * w)) ((b.xmax - b.xmin) / 100 * w)
      = (b.xmax - b.xmin) / 100 * w := by
    rw [hX]; exact min_eq_right hWle
  have hH : min (h - max 0 (b.ymin / 100 * h)) ((b.ymax - b.ymin) / 100 * h)
      = (b.ymax - b.ymin) / 100 * h := by
    rw [hY]; exact min_eq_right hHle
  simp only [cropImage]
  rw [if_neg (by push_neg; exact ⟨hx, hy⟩)]
  rw [if_neg (by rw [hW, hH]; push_neg; exact ⟨hWpos, hHpos⟩)]
  rw [hX, hY, min_eq_right hWle, min_eq_right hHle]

/-- C4: for every bounding box with xMax ≤ xMin or yMax ≤ yMin, crop
fails with InvalidBoundingBox, for every image — including one that
would fail to decode, showing the rejection happens before any image
decoding or pixel work. -/
theorem crop_invalid_box_rejected (img : ImageData) (b : Box)
    (hbad : b.xmax ≤ b.xmin ∨ b.ymax ≤ b.ymin) :
    cropImage img b = Except.error CropError.invalidBoundingBox := by
  simp only [cropImage]
  rw [if_pos hbad]

/-- Witness for C4 at the zero-width box (ymin 0, xmin 10, ymax 5,
xmax 10) on an image that would fail to decode. -/
theorem crop_invalid_box_rejected_witness :
    ((10 : ℚ) ≤ 10 ∨ (5 : ℚ) ≤ 0) ∧
      cropImage ImageData.loadFails ⟨0, 10, 5, 10⟩
        = Except.error CropError.invalidBoundingBox :=
  ⟨Or.inl le_rfl,
    crop_invalid_box_rejected ImageData.loadFails ⟨0, 10, 5, 10⟩ (Or.inl le_rfl)⟩

/-- C6: for every strictly valid box inside [0, 100] and every decoded
source image of positive pixel dimensions, crop succeeds and the
pixel width and height of the sub-image are exactly the percentage extents
scaled by the source dimensions. -/
theorem crop_in_range_succeeds (w h : ℚ) (b : Box)
    (hx : b.xmin < b.xmax) (hy : b.ymin < b.ymax)
    (hx0 : 0 ≤ b.xmin) (hx1 : b.xmax ≤ 100)
    (hy0 : 0 ≤ b.ymin) (hy1 : b.ymax ≤ 100)
    (hw : 0 < w) (hh : 0 < h) :
    cropImage (ImageData.ok w h) b =
      Except.ok { safeX := b.xmin / 100 * w, safeY := b.ymin / 100 * h,
                  safeW := (b.xmax - b.xmin) / 100 * w,
                  safeH := (b.ymax - b.ymin) / 100 * h } :=
  cropImage_inRange w h b hx hy hx0 hx1 hy0 hy1 hw hh

/-- Witness for C6: box (ymin 10, xmin 20, ymax 60, xmax 70) on a
200 x 100 image crops to the 100 x 50 rectangle at (40, 10). -/
theorem crop_in_range_succeeds_witness :
    cropImage (ImageData.ok 200 100) ⟨10, 20, 60, 70⟩ =
      Except.ok { safeX := 40, safeY := 10, safeW := 100, safeH := 50 } := by
  rw [crop_in_range_succeeds 200 100 ⟨10, 20, 60, 70⟩ (by norm_num) (by norm_num)
    (by norm_num) (by norm_num) (by norm_num) (by norm_num)
    (by norm_num) (by norm_num)]
  norm_num [Except.ok.injEq, CroppedImage.mk.injEq]

/-- Counterexample for C5: the box (ymin -50, xmin -50, ymax -10,
xmax -10) is strictly valid and its pixel rectangle on a 100 x 100 image
lies entirely outside the image (its right and bottom edges are at -10,
left of and above the origin), yet crop does not fail with
DegenerateCrop: the origin clamp moves the rectangle to (0, 0) and the
crop succeeds with a 40 x 40 sub-image. -/
theorem crop_outside_left_succeeds_counterexample :
    cropImage (ImageData.ok 100 100) ⟨-50, -50, -10, -10⟩ =
        Except.ok { safeX := 0, safeY := 0, safeW := 40, safeH := 40 } ∧
      ((-50 : ℚ) < -10) ∧
      ((-50 : ℚ) / 100 * 100 + ((-10 : ℚ) - (-50)) / 100 * 100 ≤ 0) := by
  refine ⟨?_, by norm_num, by norm_num⟩
  simp only [cropImage]
  norm_num [max_def, min_def, Except.ok.injEq, CroppedImage.mk.injEq]

/-- C5 (amended): on a decoded image, for every strictly valid box the
clamped quantities are exactly safeX = max(0, pixelX), safeY =
max(0, pixelY), safeW = min(width - safeX, pixelW), safeH =
min(height - safeY, pixelH); crop fails with DegenerateCrop if and only
if safeW ≤ 0 or safeH ≤ 0, and otherwise succeeds with exactly the
clamped rectangle.  In particular a box whose pixel rectangle starts at
or past the right edge (width ≤ pixelX) or the bottom edge
(height ≤ pixelY) fails with DegenerateCrop; a box entirely outside on
the negative side is clamped to the origin and need not fail. -/
theorem crop_clamping_amended (w h : ℚ) (b : Box)
    (hx : b.xmin < b.xmax) (hy : b.ymin < b.ymax) :
    (cropImage (ImageData.ok w h) b = Except.error CropError.degenerateCrop ↔
        min (w - max 0 (b.xmin / 100 * w)) ((b.xmax - b.xmin) / 100 * w) ≤ 0 ∨
        min (h - max 0 (b.ymin / 100 * h)) ((b.ymax - b.ymin) / 100 * h) ≤ 0) ∧
    (¬(min (w - max 0 (b.xmin / 100 * w)) ((b.xmax - b.xmin) / 100 * w) ≤ 0 ∨
        min (h - max 0 (b.ymin / 100 * h)) ((b.ymax - b.ymin) / 100 * h) ≤ 0) →
      cropImage (ImageData.ok w h) b = Except.ok
        { safeX := max 0 (b.xmin / 100 * w), safeY := max 0 (b.ymin / 100 * h),
          safeW := min (w - max 0 (b.xmin / 100 * w)) ((b.xmax - b.xmin) / 100 * w),
          safeH := min (h - max 0 (b.ymin / 100 * h)) ((b.ymax - b.ymin) / 100 * h) }) ∧
    (w ≤ b.xmin / 100 * w →
      cropImage (ImageData.ok w h) b = Except.error CropError.degenerateCrop) ∧
    (h ≤ b.ymin / 100 * h →
      cropImage (ImageData.ok w h) b = Except.error CropError.degenerateCrop) := by
  have hvalid : ¬(b.xmax ≤ b.xmin ∨ b.ymax ≤ b.ymin) := by push_neg; exact ⟨hx, hy⟩
  by_cases hc : min (w - max 0 (b.xmin / 100 * w)) ((b.xmax - b.xmin) / 100 * w) ≤ 0 ∨
      min (h - max 0 (b.ymin / 100 * h)) ((b.ymax - b.ymin) / 100 * h) ≤ 0
  · have hres : cropImage (ImageData.ok w h) b = Except.error CropError.degenerateCrop := by
      simp only [cropImage]
      rw [if_neg hvalid, if_pos hc]
    exact ⟨iff_of_true hres hc, fun hcon => absurd hc hcon,
      fun _ => hres, fun _ => hres⟩
  · have hres : cropImage (ImageData.ok w h) b = Except.ok
        { safeX := max 0 (b.xmin / 100 * w), safeY := max 0 (b.ymin / 100 * h),
          safeW := min (w - max 0 (b.xmin / 100 * w)) ((b.xmax - b.xmin) / 100 * w),
          safeH := min (h - max 0 (b.ymin / 100 * h)) ((b.ymax - b.ymin) / 100 * h) } := by
      simp only [cropImage]
      rw [if_neg hvalid, if_neg hc]
    refine ⟨iff_of_false (by rw [hres]; exact fun hcon => by cases hcon) hc,
      fun _ => hres, fun hpast => absurd hc ?_, fun hpast => absurd hc ?_⟩
    · intro hcon
      exact hcon (Or.inl (le_trans (min_le_left _ _) (by
        have := le_max_right (0 : ℚ) (b.xmin / 100 * w)
        linarith [le_trans hpast (le_max_right 0 (b.xmin / 100 * w))])))
    · intro hcon
      exact hcon (Or.inr (le_trans (min_le_left _ _) (by
        linarith [le_trans hpast (le_max_right 0 (b.ymin / 100 * h))])))

/-- Witness for C5 (amended): box (ymin 0, xmin 110, ymax 50, xmax 120)
starts past the right edge of a 100 x 100 image and crop fails with
DegenerateCrop. -/
theorem crop_clamping_amended_witness :
    cropImage (ImageData.ok 100 100) ⟨0, 110, 50, 120⟩
      = Except.error CropError.degenerateCrop :=
  (crop_clamping_amended 100 100 ⟨0, 110, 50, 120⟩ (by norm_num) (by norm_num)).2.2.1
    (by norm_num)

/-- C10: for every figure whose bounding box passes the assembler
pre-filter (the negation of `xmax <= xmin || ymax <= ymin`), the crop
engine cannot return InvalidBoundingBox on it, whatever the image: the
rejection branch is unreachable from the assembler. -/
theorem assembler_prefilter_guards_crop (img : ImageData) (f : SlideFigure)
    (hpass : ¬(f.boundingBox.xmax ≤ f.boundingBox.xmin ∨
        f.boundingBox.ymax ≤ f.boundingBox.ymin)) :
    cropImage img f.boundingBox ≠ Except.error CropError.invalidBoundingBox := by
  simp only [cropImage]
  rw [if_neg hpass]
  cases img with
  | ok w h =>
    dsimp only
    split
    · simp
    · simp
  | loadFails => simp
  | loadTimesOut => simp

/-- Witness for C10 at the box (0, 0, 50, 50), even on an image whose
decode fails. -/
theorem assembler_prefilter_guards_crop_witness :
    cropImage ImageData.loadFails ⟨0, 0, 50, 50⟩
      ≠ Except.error CropError.invalidBoundingBox :=
  assembler_prefilter_guards_crop ImageData.loadFails ⟨⟨0, 0, 50, 50⟩, "figure"⟩
    (by norm_num)

/-- C7: for a TWO_COLUMN slide with content of length L, the split point
is ceil(L / 2) (characterized by L ≤ 2 mid ≤ L + 1): the left column
receives the first mid blocks and the right column the remaining
L - mid; for L = 0 neither column emits a text operation and for L = 1
only the left column emits one, so an empty half never produces a text
box. -/
theorem two_column_split (fg : String) (a : SlideContent)
    (hL : a.layoutType = LayoutType.TWO_COLUMN) :
    (a.content.length = 0 → contentOps fg a = []) ∧
    (a.content.length = 1 → contentOps fg a = [DrawOp.addText a.content (leftColOpts fg)]) ∧
    (2 ≤ a.content.length →
      contentOps fg a =
        [DrawOp.addText (a.content.take ((a.content.length + 1) / 2)) (leftColOpts fg),
         DrawOp.addText (a.content.drop ((a.content.length + 1) / 2)) (rightColOpts fg)] ∧
      (a.content.take ((a.content.length + 1) / 2)).length = (a.content.length + 1) / 2 ∧
      (a.content.drop ((a.content.length + 1) / 2)).length
        = a.content.length - (a.content.length + 1) / 2) ∧
    (a.content.length ≤ 2 * ((a.content.length + 1) / 2) ∧
      2 * ((a.content.length + 1) / 2) ≤ a.content.length + 1) := by
  rcases a with ⟨t, c, lt, bg, tc, nt, fgs⟩
  dsimp only at hL ⊢
  subst hL
  refine ⟨?_, ?_, ?_, by omega⟩
  · intro h0
    rw [List.length_eq_zero] at h0
    subst h0
    simp [contentOps]
  · intro h1
    obtain ⟨x, hx⟩ := List.length_eq_one.mp h1
    subst hx
    simp [contentOps]
  · intro h2
    have hlt : 0 < (c.take ((c.length + 1) / 2)).length := by
      rw [List.length_take]; omega
    have hrt : 0 < (c.drop ((c.length + 1) / 2)).length := by
      rw [List.length_drop]; omega
    refine ⟨?_, by rw [List.length_take]; omega, by rw [List.length_drop]⟩
    simp only [contentOps]
    rw [if_pos hlt, if_pos hrt]
    rfl

/-- Witness for C7: a TWO_COLUMN slide with three content blocks splits
two to the left column and one to the right. -/
theorem two_column_split_witness :
    contentOps "000000"
        { title := "T", content := ["a", "b", "c"],
          layoutType := LayoutType.TWO_COLUMN, backgroundColor := none,
          textColor := none, notes := none, figures := none } =
      [DrawOp.addText ["a", "b"] (leftColOpts "000000"),
       DrawOp.addText ["c"] (rightColOpts "000000")] :=
  ((two_column_split "000000"
      { title := "T", content := ["a", "b", "c"],
        layoutType := LayoutType.TWO_COLUMN, backgroundColor := none,
        textColor := none, notes := none, figures := none } rfl).2.2.1
    (by norm_num)).1

/-- Helper: membership in a conditional singleton list forces equality
with its element. -/
theorem mem_if_singleton {α : Type} {y x : α} {c : Prop} [Decidable c]
    (hm : y ∈ if c then [x] else []) : y = x := by
  split at hm
  · exact List.mem_singleton.mp hm
  · cases hm

/-- Helper: any operation in `bgOps` is the setBackground call with the
hash-stripped color, and it only appears when backgroundColor is truthy. -/
theorem mem_bgOps {op : DrawOp} {a : SlideContent} (hm : op ∈ bgOps a) :
    op = DrawOp.setBackground (stripHash (a.backgroundColor.getD "")) ∧
      isTruthy a.backgroundColor = true := by
  unfold bgOps at hm
  split at hm
  · next hbg => exact ⟨List.mem_singleton.mp hm, hbg⟩
  · cases hm

/-- Helper: every text operation emitted for the title uses the resolved
foreground color. -/
theorem textColor_titleOps {fg : String} {a : SlideContent} {blocks : List String}
    {opts : TextOpts} (hm : DrawOp.addText blocks opts ∈ titleOps fg a) :
    opts.color = fg := by
  unfold titleOps at hm
  split at hm
  · cases hm
  · have h := List.mem_singleton.mp hm
    injection h with h1 h2
    subst h2
    rfl

/-- Helper: every body text operation uses the resolved foreground
color, in every layout branch. -/
theorem textColor_contentOps {fg : String} {a : SlideContent} {blocks : List String}
    {opts : TextOpts} (hm : DrawOp.addText blocks opts ∈ contentOps fg a) :
    opts.color = fg := by
  rcases a with ⟨t, c, lt, bg, tc, nt, fgs⟩
  cases lt
  case TWO_COLUMN =>
    simp only [contentOps] at hm
    rcases List.mem_append.mp hm with hm | hm
    · have h := mem_if_singleton hm
      injection h with h1 h2
      subst h2
      rfl
    · have h := mem_if_singleton hm
      injection h with h1 h2
      subst h2
      rfl
  case SECTION_HEADER =>
    simp only [contentOps] at hm
    have h := mem_if_singleton hm
    injection h with h1 h2
    subst h2
    rfl
  all_goals
    simp only [contentOps] at hm
  all_goals
    have h := mem_if_singleton hm
  all_goals
    injection h with h1 h2
  all_goals
    subst h2
  all_goals
    rfl

/-- Helper: a successful figure iteration only ever emits an addImage
operation. -/
theorem figOp_addImage {img : ImageData} {f : SlideFigure} {op : DrawOp}
    (h : figOp img f = some op) :
    ∃ p x y w h2, op = DrawOp.addImage p x y w h2 := by
  simp only [figOp] at h
  split at h
  · cases h
  · split at h
    · cases h
    · injection h with h3
      exact ⟨_, _, _, _, _, h3.symm⟩

/-- Helper: the figure loop only emits addImage operations. -/
theorem mem_figureOps {img : ImageData} {figs : List SlideFigure} {op : DrawOp}
    (hm : op ∈ figureOps img figs) :
    ∃ p x y w h2, op = DrawOp.addImage p x y w h2 := by
  unfold figureOps at hm
  obtain ⟨f, hf, hop⟩ := List.mem_filterMap.mp hm
  exact figOp_addImage hop

/-- Helper: any operation in `notesOps` is an addNotes call. -/
theorem mem_notesOps {op : DrawOp} {a : SlideContent} (hm : op ∈ notesOps a) :
    ∃ n, op = DrawOp.addNotes n := by
  unfold notesOps at hm
  split at hm
  · exact ⟨_, List.mem_singleton.mp hm⟩
  · cases hm

/-- Helper: every operation emitted for the title is that addText call. -/
theorem mem_titleOps_addText {fg : String} {a : SlideContent} {op : DrawOp}
    (hm : op ∈ titleOps fg a) : op = DrawOp.addText [a.title] (titleOpts fg) := by
  unfold titleOps at hm
  split at hm
  · cases hm
  · exact List.mem_singleton.mp hm

/-- Helper: every body text operation is an addText call, in every
layout branch. -/
theorem mem_contentOps_addText {fg : String} {a : SlideContent} {op : DrawOp}
    (hm : op ∈ contentOps fg a) :
    ∃ blocks opts, op = DrawOp.addText blocks opts := by
  rcases a with ⟨t, c, lt, bg, tc, nt, fgs⟩
  cases lt
  case TWO_COLUMN =>
    simp only [contentOps] at hm
    rcases List.mem_append.mp hm with hm | hm
    · exact ⟨_, _, mem_if_singleton hm⟩
    · exact ⟨_, _, mem_if_singleton hm⟩
  case SECTION_HEADER =>
    simp only [contentOps] at hm
    exact ⟨_, _, mem_if_singleton hm⟩
  all_goals
    simp only [contentOps] at hm
  all_goals
    exact ⟨_, _, mem_if_singleton hm⟩

/-- Counterexample for C9: a slide whose analysis carries no
backgroundColor produces no "set background color" operation at all —
the assembled operations are just the addSlide call, with no
default-white background. -/
theorem background_default_counterexample :
    slideOps { originalImage := ImageData.ok 100 100,
               analysis := some { title := "", content := [],
                                  layoutType := LayoutType.TITLE_ONLY,
                                  backgroundColor := none, textColor := none,
                                  notes := none, figures := none },
               status := SlideStatus.done } = [DrawOp.addSlide] := by
  simp only [slideOps, bgOps, titleOps, contentOps, figureOps, figuresOf, notesOps, isTruthy]
  decide

/-- C9 (amended): a setBackground operation is emitted exactly when the
analysis carries a truthy backgroundColor, and then with the first
hash character removed; when backgroundColor is absent or empty no background operation
is emitted at all (no default white).  The text color defaults to black
(000000) when textColor is absent, with the hash stripped otherwise, and
every emitted text operation uses that resolved color. -/
theorem color_resolution_amended (s : ProcessedSlide) (a : SlideContent)
    (ha : s.analysis = some a) :
    (isTruthy a.backgroundColor = true →
      DrawOp.setBackground (stripHash (a.backgroundColor.getD "")) ∈ slideOps s) ∧
    (isTruthy a.backgroundColor = false →
      ∀ c, DrawOp.setBackground c ∉ slideOps s) ∧
    (∀ blocks opts, DrawOp.addText blocks opts ∈ slideOps s →
      opts.color = resolveFg a) := by
  rcases s with ⟨img, an, st⟩
  dsimp only at ha
  subst ha
  refine ⟨?_, ?_, ?_⟩
  · intro hbg
    have hb : DrawOp.setBackground (stripHash (a.backgroundColor.getD "")) ∈ bgOps a := by
      unfold bgOps
      rw [if_pos hbg]
      exact List.mem_singleton.mpr rfl
    simp only [slideOps]
    exact List.mem_cons_of_mem _ (List.mem_append.mpr (Or.inl
      (List.mem_append.mpr (Or.inl (List.mem_append.mpr (Or.inl
        (List.mem_append.mpr (Or.inl hb))))))))
  · intro hbg c hm
    simp only [slideOps] at hm
    rcases List.mem_cons.mp hm with hm | hm
    · exact DrawOp.noConfusion hm
    rcases List.mem_append.mp hm with hm | hm
    case inr =>
      obtain ⟨n, h⟩ := mem_notesOps hm
      exact DrawOp.noConfusion h
    rcases List.mem_append.mp hm with hm | hm
    case inr =>
      obtain ⟨p, x, y, w, h2, h⟩ := mem_figureOps hm
      exact DrawOp.noConfusion h
    rcases List.mem_append.mp hm with hm | hm
    case inr =>
      obtain ⟨blocks, opts, h⟩ := mem_contentOps_addText hm
      exact DrawOp.noConfusion h
    rcases List.mem_append.mp hm with hm | hm
    case inr => exact DrawOp.noConfusion (mem_titleOps_addText hm)
    have h2 := (mem_bgOps hm).2
    rw [hbg] at h2
    cases h2
  · intro blocks opts hm
    simp only [slideOps] at hm
    rcases List.mem_cons.mp hm with hm | hm
    · exact DrawOp.noConfusion hm
    rcases List.mem_append.mp hm with hm | hm
    case inr =>
      obtain ⟨n, h⟩ := mem_notesOps hm
      exact DrawOp.noConfusion h
    rcases List.mem_append.mp hm with hm | hm
    case inr =>
      obtain ⟨p, x, y, w, h2, h⟩ := mem_figureOps hm
      exact DrawOp.noConfusion h
    rcases List.mem_append.mp hm with hm | hm
    case inr => exact textColor_contentOps hm
    rcases List.mem_append.mp hm with hm | hm
    case inr => exact textColor_titleOps hm
    exact DrawOp.noConfusion (mem_bgOps hm).1

/-- Witness for C9 (amended): a slide with backgroundColor "#1A2B3C"
emits the setBackground operation with color "1A2B3C". -/
theorem color_resolution_amended_witness :
    DrawOp.setBackground "1A2B3C" ∈ slideOps
      { originalImage := ImageData.ok 100 100,
        analysis := some { title := "", content := [],
                           layoutType := LayoutType.TITLE_ONLY,
                           backgroundColor := some "#1A2B3C",
                           textColor := some "#FF0000",
                           notes := none, figures := none },
        status := SlideStatus.done } :=
  (color_resolution_amended
      { originalImage := ImageData.ok 100 100,
        analysis := some { title := "", content := [],
                           layoutType := LayoutType.TITLE_ONLY,
                           backgroundColor := some "#1A2B3C",
                           textColor := some "#FF0000",
                           notes := none, figures := none },
        status := SlideStatus.done }
      { title := "", content := [], layoutType := LayoutType.TITLE_ONLY,
        backgroundColor := some "#1A2B3C", textColor := some "#FF0000",
        notes := none, figures := none }
      rfl).1 (by decide)

/-- C1: a figure whose iteration fails (pre-filter skip, crop failure or
decode error — all the cases in which `figOp` yields nothing) is simply
dropped from the emitted sequence, leaving the operation of every
other figure and all other slide operations unchanged; in particular, for a
slide with three figures whose second has an inverted box (xMax < xMin),
the emitted figure operations are exactly those of figures 1 and 3, and
the whole slide assembles exactly as if figure 2 were absent (the
assembler is a total function, so no exception escapes it). -/
theorem figure_failure_isolation
    (img : ImageData) (st : SlideStatus) (a : SlideContent)
    (f1 f2 f3 : SlideFigure) (op1 op3 : DrawOp)
    (ha : a.figures = some [f1, f2, f3])
    (h2 : f2.boundingBox.xmax < f2.boundingBox.xmin)
    (h1 : figOp img f1 = some op1)
    (h3 : figOp img f3 = some op3) :
    (∀ (im : ImageData) (l1 l2 : List SlideFigure) (g : SlideFigure),
      figOp im g = none →
        figureOps im (l1 ++ g :: l2) = figureOps im (l1 ++ l2)) ∧
    figOp img f2 = none ∧
    figureOps img [f1, f2, f3] = [op1, op3] ∧
    slideOps { originalImage := img, analysis := some a, status := st } =
      slideOps { originalImage := img,
                 analysis := some { a with figures := some [f1, f3] },
                 status := st } := by
  have hf2 : figOp img f2 = none := by
    unfold figOp
    rw [if_pos (Or.inl h2.le)]
  have e123 : figureOps img [f1, f2, f3] = [op1, op3] := by
    simp [figureOps, List.filterMap_cons, h1, hf2, h3]
  have e13 : figureOps img [f1, f3] = [op1, op3] := by
    simp [figureOps, List.filterMap_cons, h1, h3]
  refine ⟨?_, hf2, e123, ?_⟩
  · intro im l1 l2 g hg
    simp [figureOps, List.filterMap_append, List.filterMap_cons, hg]
  · rcases a with ⟨t, c, lt, bg, tc, nt, fgs⟩
    dsimp only at ha
    subst ha
    simp only [slideOps, figuresOf, Option.getD_some]
    rw [e123, e13]
    rfl

/-- Witness for C1: three concrete figures on a 100 x 100 image, the
second with an inverted box; the figure loop emits exactly the crops of
figures 1 and 3. -/
theorem figure_failure_isolation_witness :
    figureOps (ImageData.ok 100 100)
        [⟨⟨10, 10, 50, 50⟩, "f1"⟩, ⟨⟨10, 60, 50, 40⟩, "f2"⟩,
         ⟨⟨60, 10, 90, 90⟩, "f3"⟩] =
      [DrawOp.addImage (ImagePayload.cropped ⟨10, 10, 40, 40⟩)
          (Dim.pct 10) (Dim.pct 10) (Dim.pct 40) (Dim.pct 40),
       DrawOp.addImage (ImagePayload.cropped ⟨10, 60, 80, 30⟩)
          (Dim.pct 10) (Dim.pct 60) (Dim.pct 80) (Dim.pct 30)] := by
  have hc1 := cropImage_inRange 100 100 ⟨10, 10, 50, 50⟩ (by norm_num) (by norm_num)
    (by norm_num) (by norm_num) (by norm_num) (by norm_num) (by norm_num) (by norm_num)
  have hc3 := cropImage_inRange 100 100 ⟨60, 10, 90, 90⟩ (by norm_num) (by norm_num)
    (by norm_num) (by norm_num) (by norm_num) (by norm_num) (by norm_num) (by norm_num)
  have h1 : figOp (ImageData.ok 100 100) ⟨⟨10, 10, 50, 50⟩, "f1"⟩
      = some (DrawOp.addImage (ImagePayload.cropped ⟨10, 10, 40, 40⟩)
          (Dim.pct 10) (Dim.pct 10) (Dim.pct 40) (Dim.pct 40)) := by
    simp only [figOp, hc1]
    norm_num
  have h3 : figOp (ImageData.ok 100 100) ⟨⟨60, 10, 90, 90⟩, "f3"⟩
      = some (DrawOp.addImage (ImagePayload.cropped ⟨10, 60, 80, 30⟩)
          (Dim.pct 10) (Dim.pct 60) (Dim.pct 80) (Dim.pct 30)) := by
    simp only [figOp, hc3]
    norm_num
  exact (figure_failure_isolation (ImageData.ok 100 100) SlideStatus.done
      { title := "T", content := ["x"], layoutType := LayoutType.TITLE_AND_CONTENT,
        backgroundColor := none, textColor := none, notes := none,
        figures := some [⟨⟨10, 10, 50, 50⟩, "f1"⟩, ⟨⟨10, 60, 50, 40⟩, "f2"⟩,
                         ⟨⟨60, 10, 90, 90⟩, "f3"⟩] }
      ⟨⟨10, 10, 50, 50⟩, "f1"⟩ ⟨⟨10, 60, 50, 40⟩, "f2"⟩ ⟨⟨60, 10, 90, 90⟩, "f3"⟩
      (DrawOp.addImage (ImagePayload.cropped ⟨10, 10, 40, 40⟩)
        (Dim.pct 10) (Dim.pct 10) (Dim.pct 40) (Dim.pct 40))
      (DrawOp.addImage (ImagePayload.cropped ⟨10, 60, 80, 30⟩)
        (Dim.pct 10) (Dim.pct 60) (Dim.pct 80) (Dim.pct 30))
      rfl (by norm_num) h1 h3).2.2.1

/-- C2: the analysis loop yields exactly one ProcessedSlide per input
page; slide i is the analysis step applied to the pending slide built
from page i alone (so an error at one index never disturbs any other
index); the retained deck is an order-preserving subsequence of the
batch consisting exactly of the done-with-analysis slides; and a slide
with absent analysis contributes no operations (it is skipped by the
builder). -/
theorem order_preservation (images : List ImageData)
    (analyzer : ImageData → Except Unit SlideContent) :
    (analyzeLoop analyzer (initialSlides images)).length = images.length ∧
    (∀ i : ℕ, (analyzeLoop analyzer (initialSlides images)).get? i =
      (images.get? i).map (fun img => analyzeStep analyzer
        { originalImage := img, analysis := none, status := SlideStatus.pending })) ∧
    ((analyzeLoop analyzer (initialSlides images)).filter isValidSlide).Sublist
      (analyzeLoop analyzer (initialSlides images)) ∧
    (∀ s : ProcessedSlide,
      s ∈ (analyzeLoop analyzer (initialSlides images)).filter isValidSlide ↔
        s ∈ analyzeLoop analyzer (initialSlides images) ∧ isValidSlide s = true) ∧
    (∀ (im : ImageData) (st : SlideStatus),
      slideOps { originalImage := im, analysis := none, status := st } = []) := by
  refine ⟨?_, ?_, List.filter_sublist _, fun s => List.mem_filter, fun im st => rfl⟩
  · simp [analyzeLoop, initialSlides]
  · intro i
    simp only [analyzeLoop, initialSlides, List.map_map, List.get?_map]
    rfl

/-- C3: if after the analysis loop no slide is both done and carries an
analysis, `analyzeSlides` fails the batch with the no-slides-analyzed
error before any sink operation or write call; otherwise it builds the
deck from the non-empty filtered set and invokes the write.  When every
analysis call fails, the filtered set is indeed empty. -/
theorem no_slides_analyzed (images : List ImageData)
    (analyzer : ImageData → Except Unit SlideContent)
    (writeRes : Except Unit Unit) :
    (((analyzeLoop analyzer (initialSlides images)).filter isValidSlide) = [] →
      analyzeSlides analyzer writeRes (initialSlides images) =
        { finalState := AppState.ERROR
          errorMsg := some "Failed to generate PowerPoint file."
          sinkOps := []
          wroteFile := false
          thrownErr := some FailReason.noSlidesAnalyzed }) ∧
    (((analyzeLoop analyzer (initialSlides images)).filter isValidSlide) ≠ [] →
      (analyzeSlides analyzer writeRes (initialSlides images)).sinkOps =
          generatePptxOps
            ((analyzeLoop analyzer (initialSlides images)).filter isValidSlide) ∧
      (analyzeSlides analyzer writeRes (initialSlides images)).wroteFile = true) ∧
    ((∀ img ∈ images, analyzer img = Except.error ()) →
      ((analyzeLoop analyzer (initialSlides images)).filter isValidSlide) = []) := by
  refine ⟨?_, ?_, ?_⟩
  · intro hnil
    have hlen : ((analyzeLoop analyzer (initialSlides images)).filter isValidSlide).length = 0 := by
      rw [hnil]; rfl
    simp only [analyzeSlides]
    rw [if_pos hlen]
  · intro hne
    have hlen : ¬((analyzeLoop analyzer (initialSlides images)).filter isValidSlide).length = 0 :=
      fun hc => hne (List.length_eq_zero.mp hc)
    simp only [analyzeSlides]
    rw [if_neg hlen]
    cases writeRes with
    | ok u => exact ⟨rfl, rfl⟩
    | error u => exact ⟨rfl, rfl⟩
  · intro hall
    rw [List.filter_eq_nil]
    intro s hs
    simp only [analyzeLoop, initialSlides, List.map_map, List.mem_map] at hs
    obtain ⟨img, himg, hseq⟩ := hs
    rw [← hseq]
    simp only [Function.comp, analyzeStep, hall img himg]
    simp [isValidSlide]

/-- Witness for C3: a one-page batch whose single analysis call fails
ends in the no-slides-analyzed failure with no sink operations and no
write. -/
theorem no_slides_analyzed_witness :
    analyzeSlides (fun _ => Except.error ()) (Except.ok ())
        (initialSlides [ImageData.ok 100 100]) =
      { finalState := AppState.ERROR
        errorMsg := some "Failed to generate PowerPoint file."
        sinkOps := []
        wroteFile := false
        thrownErr := some FailReason.noSlidesAnalyzed } :=
  (no_slides_analyzed [ImageData.ok 100 100] (fun _ => Except.error ()) (Except.ok ())).1
    ((no_slides_analyzed [ImageData.ok 100 100] (fun _ => Except.error ())
        (Except.ok ())).2.2 (fun _ _ => rfl))

/-- Counterexample for C8: in image-copy mode an empty input page
sequence does not fail the batch — the sink write of the empty deck
succeeds and the run terminates in COMPLETED, although the claim
requires a Failed outcome for an empty input page sequence. -/
theorem empty_input_image_mode_completes_counterexample :
    (handleFileAccepted ConversionMode.IMAGE_ONLY (Except.ok [])
        (fun _ => Except.error ()) (Except.ok ())).finalState
      = AppState.COMPLETED := rfl

/-- C8 (amended): the batch terminates in COMPLETED exactly when a sink
write was performed and succeeded, and otherwise in ERROR; ERROR holds
exactly when an internal failure was recorded, and the recorded reason
is input-read-failed exactly for an unreadable input, sink-write-failed
exactly when a performed write threw, and no-slides-analyzed exactly
when AI-extract mode retained no analyzed slide (which covers an empty
input page sequence in AI-extract mode; in image mode an empty input
completes with an empty deck).  The input-read failure additionally
carries its own distinct user-facing message. -/
theorem terminal_states_amended (mode : ConversionMode)
    (pdfResult : Except Unit (List ImageData))
    (analyzer : ImageData → Except Unit SlideContent)
    (writeRes : Except Unit Unit) :
    ((handleFileAccepted mode pdfResult analyzer writeRes).finalState
        = AppState.COMPLETED ↔
      ((handleFileAccepted mode pdfResult analyzer writeRes).wroteFile = true ∧
        writeRes = Except.ok ())) ∧
    ((handleFileAccepted mode pdfResult analyzer writeRes).finalState
        = AppState.COMPLETED ∨
      (handleFileAccepted mode pdfResult analyzer writeRes).finalState
        = AppState.ERROR) ∧
    ((handleFileAccepted mode pdfResult analyzer writeRes).finalState
        = AppState.ERROR ↔
      (handleFileAccepted mode pdfResult analyzer writeRes).thrownErr.isSome = true) ∧
    ((handleFileAccepted mode pdfResult analyzer writeRes).thrownErr
        = some FailReason.inputReadFailed ↔ pdfResult = Except.error ()) ∧
    ((handleFileAccepted mode pdfResult analyzer writeRes).thrownErr
        = some FailReason.sinkWriteFailed ↔
      ((handleFileAccepted mode pdfResult analyzer writeRes).wroteFile = true ∧
        writeRes = Except.error ())) ∧
    ((handleFileAccepted mode pdfResult analyzer writeRes).thrownErr
        = some FailReason.noSlidesAnalyzed ↔
      (mode = ConversionMode.AI_EXTRACT ∧ ∃ images, pdfResult = Except.ok images ∧
        ((analyzeLoop analyzer (initialSlides images)).filter isValidSlide).length
          = 0)) ∧
    ((handleFileAccepted mode pdfResult analyzer writeRes).thrownErr
        = some FailReason.inputReadFailed →
      (handleFileAccepted mode pdfResult analyzer writeRes).errorMsg
        = some "Failed to process PDF. Please try a simpler file.") := by
  cases pdfResult with
  | error e =>
    cases e
    simp [handleFileAccepted]
  | ok images =>
    cases mode with
    | AI_EXTRACT =>
      by_cases hlen :
          ((analyzeLoop analyzer (initialSlides images)).filter isValidSlide).length = 0
      · have hforall := List.filter_eq_nil_iff.mp (List.length_eq_zero.mp hlen)
        cases writeRes with
        | ok u =>
          cases u
          simp [handleFileAccepted, analyzeSlides, hlen]
          intro a ha
          simpa using hforall a ha
        | error u =>
          cases u
          simp [handleFileAccepted, analyzeSlides, hlen]
          intro a ha
          simpa using hforall a ha
      · have hne : (analyzeLoop analyzer (initialSlides images)).filter isValidSlide ≠ [] :=
          fun hc => hlen (by rw [hc]; rfl)
        obtain ⟨x, hx⟩ := List.exists_mem_of_ne_nil _ hne
        cases writeRes with
        | ok u =>
          cases u
          simp [handleFileAccepted, analyzeSlides, hlen]
          exact ⟨x, (List.mem_filter.mp hx).1, (List.mem_filter.mp hx).2⟩
        | error u =>
          cases u
          simp [handleFileAccepted, analyzeSlides, hlen]
          exact ⟨x, (List.mem_filter.mp hx).1, (List.mem_filter.mp hx).2⟩
    | IMAGE_ONLY =>
      cases writeRes with
      | ok u => cases u; simp [handleFileAccepted, createSimplePptx]
      | error u => cases u; simp [handleFileAccepted, createSimplePptx]

/-- Witness for C8 (amended): an unreadable input carries the dedicated
user-facing message of the input-read failure. -/
theorem terminal_states_amended_witness :
    (handleFileAccepted ConversionMode.AI_EXTRACT (Except.error ())
        (fun _ => Except.error ()) (Except.ok ())).errorMsg
      = some "Failed to process PDF. Please try a simpler file." :=
  (terminal_states_amended ConversionMode.AI_EXTRACT (Except.error ())
      (fun _ => Except.error ()) (Except.ok ())).2.2.2.2.2.2 rfl

end SlideShifter

